import Mathlib

/-!
Shallow embedding of `deptry`'s configuration resolver (`src/deptry/config.py`).

The Python module builds a `Config` object in three passes:
defaults (`_set_defaults`), pyproject.toml (`_override_config_with_pyproject_toml`),
and command-line arguments (`_override_config_with_cli_arguments`), logging each
change at debug level.  Python values are dynamically typed, so fields hold a
universal `PyValue`; a Python object's attributes may be unset before
`_set_defaults` runs, so each `Config` field is an `Option PyValue` with
`Option.none` standing for an absent attribute.  Debug log output is modelled as
a `List String` threaded through the passes.  Statements the Python runtime
would raise through (the bare `except` does not surround the merge passes) are
modelled with `Except String`.
-/

/-- A Python runtime value, restricted to the shapes that appear in the
configuration layer: `None`, booleans, integers, strings, lists and
string-keyed dicts (both the parsed TOML document and the defaults table). -/
inductive PyValue where
  | pyNone
  | pyBool (b : Bool)
  | pyInt (n : Int)
  | pyStr (s : String)
  | pyList (xs : List PyValue)
  | pyDict (xs : List (String × PyValue))

mutual

/-- Python `repr`, as far as the logged value shapes need it. -/
def pyRepr : PyValue → String
  | .pyNone => "None"
  | .pyBool true => "True"
  | .pyBool false => "False"
  | .pyInt n => toString n
  | .pyStr s => "'" ++ s ++ "'"
  | .pyList xs => "[" ++ pyReprList xs ++ "]"
  | .pyDict xs => "\x7b" ++ pyReprDict xs ++ "\x7d"

/-- Comma-separated `repr`s of a list's elements. -/
def pyReprList : List PyValue → String
  | [] => ""
  | [x] => pyRepr x
  | x :: y :: rest => pyRepr x ++ ", " ++ pyReprList (y :: rest)

/-- Comma-separated `'key': repr(value)` pairs of a dict. -/
def pyReprDict : List (String × PyValue) → String
  | [] => ""
  | [(k, v)] => "'" ++ k ++ "': " ++ pyRepr v
  | (k, v) :: p :: rest => "'" ++ k ++ "': " ++ pyRepr v ++ ", " ++ pyReprDict (p :: rest)

end

/-- Python `str`: identity on strings, `repr` on the other shapes used here. -/
def pyStrFn : PyValue → String
  | .pyStr s => s
  | v => pyRepr v

/-- Python truthiness: `None`/`False`/`0` and empty strings, lists and dicts
are falsy; everything else is truthy. -/
def pyTruthy : PyValue → Bool
  | .pyNone => false
  | .pyBool b => b
  | .pyInt n => n != 0
  | .pyStr s => !s.isEmpty
  | .pyList xs => !xs.isEmpty
  | .pyDict xs => !xs.isEmpty

/-- Python `key in v` for a string `key`.  Dict: key test. List: element
equality (only a `str` element can equal a `str`). String: substring test
(every call site passes a non-empty key, for which the `splitOn` encoding is
exact).  Other receivers raise `TypeError`. -/
def pyIn (key : String) (v : PyValue) : Except String Bool :=
  match v with
  | .pyDict xs => .ok (xs.lookup key).isSome
  | .pyList xs => .ok (xs.any fun e => match e with | .pyStr s => s == key | _ => false)
  | .pyStr s => .ok (decide ((s.splitOn key).length > 1))
  | _ => .error "TypeError: argument of type is not iterable"

/-- Python `v[key]` for a string `key`: dict lookup; a missing key raises
`KeyError`, any non-dict receiver raises `TypeError`. -/
def pyGetItem (v : PyValue) (key : String) : Except String PyValue :=
  match v with
  | .pyDict xs =>
      match xs.lookup key with
      | some x => .ok x
      | Option.none => .error "KeyError"
  | _ => .error "TypeError: value is not subscriptable"

/-- The `DEFAULTS` dict at the top of `config.py`. -/
def DEFAULTS : List (String × PyValue) :=
  [("ignore_obsolete", .pyList []),
   ("ignore_missing", .pyList []),
   ("ignore_transitive", .pyList []),
   ("ignore_directories", .pyList [.pyStr ".venv", .pyStr "tests"]),
   ("ignore_notebooks", .pyBool false),
   ("skip_obsolete", .pyBool false),
   ("skip_missing", .pyBool false),
   ("skip_transitive", .pyBool false)]

/-- The resolver's state: one attribute slot per setting.  `Option.none`
models an attribute that has not been assigned yet. -/
structure Config where
  ignore_obsolete : Option PyValue
  ignore_missing : Option PyValue
  ignore_transitive : Option PyValue
  ignore_directories : Option PyValue
  ignore_notebooks : Option PyValue
  skip_obsolete : Option PyValue
  skip_missing : Option PyValue
  skip_transitive : Option PyValue

/-- A freshly constructed Python object, before `__init__` assigns anything. -/
def emptyConfig : Config :=
  ⟨Option.none, Option.none, Option.none, Option.none,
   Option.none, Option.none, Option.none, Option.none⟩

/-- Python `setattr(self, name, v)`, restricted to the eight attribute names the
module ever passes to it (no call site uses any other name). -/
def Config.setattr (c : Config) (name : String) (v : PyValue) : Config :=
  if name = "ignore_obsolete" then { c with ignore_obsolete := some v }
  else if name = "ignore_missing" then { c with ignore_missing := some v }
  else if name = "ignore_transitive" then { c with ignore_transitive := some v }
  else if name = "ignore_directories" then { c with ignore_directories := some v }
  else if name = "ignore_notebooks" then { c with ignore_notebooks := some v }
  else if name = "skip_obsolete" then { c with skip_obsolete := some v }
  else if name = "skip_missing" then { c with skip_missing := some v }
  else if name = "skip_transitive" then { c with skip_transitive := some v }
  else c

/-- Attribute read by name; `Option.none` for an unset or unknown attribute. -/
def Config.getattr (c : Config) (name : String) : Option PyValue :=
  if name = "ignore_obsolete" then c.ignore_obsolete
  else if name = "ignore_missing" then c.ignore_missing
  else if name = "ignore_transitive" then c.ignore_transitive
  else if name = "ignore_directories" then c.ignore_directories
  else if name = "ignore_notebooks" then c.ignore_notebooks
  else if name = "skip_obsolete" then c.skip_obsolete
  else if name = "skip_missing" then c.skip_missing
  else if name = "skip_transitive" then c.skip_transitive
  else Option.none

/-- `Config._set_defaults`: assign every field from `DEFAULTS`.  Every key
accessed is present in `DEFAULTS`, so the `KeyError` branch of dict access is
unreachable and `getD .pyNone` never fires. -/
def Config.set_defaults (c : Config) : Config :=
  { c with
    ignore_obsolete := some ((DEFAULTS.lookup "ignore_obsolete").getD .pyNone),
    ignore_missing := some ((DEFAULTS.lookup "ignore_missing").getD .pyNone),
    ignore_transitive := some ((DEFAULTS.lookup "ignore_transitive").getD .pyNone),
    ignore_directories := some ((DEFAULTS.lookup "ignore_directories").getD .pyNone),
    ignore_notebooks := some ((DEFAULTS.lookup "ignore_notebooks").getD .pyNone),
    skip_obsolete := some ((DEFAULTS.lookup "skip_obsolete").getD .pyNone),
    skip_missing := some ((DEFAULTS.lookup "skip_missing").getD .pyNone),
    skip_transitive := some ((DEFAULTS.lookup "skip_transitive").getD .pyNone) }

/-- `Config._log_changed_by_pyproject_toml`. -/
def log_changed_by_pyproject_toml (argument : String) (value : PyValue) : String :=
  "Argument " ++ argument ++ " set to " ++ pyStrFn value ++ " by pyproject.toml"

/-- `Config._log_changed_by_command_line_argument`.  The source's message text
also says "by pyproject.toml" (its f-string is identical to the pyproject one). -/
def log_changed_by_command_line_argument (argument : String) (value : PyValue) : String :=
  "Argument " ++ argument ++ " set to " ++ pyStrFn value ++ " by pyproject.toml"

/-- The debug line emitted by the bare `except` branch of
`_read_configuration_from_pyproject_toml`. -/
def noConfigLogMsg : String := "No configuration for deptry was found in pyproject.toml."

/-- The observable state of `./pyproject.toml` at resolution time: the file can
be absent (`read_text` raises `FileNotFoundError`), unparseable (`toml.loads`
raises), or parsed into a document value. -/
inductive PyprojectFile where
  | absent
  | unparseable
  | parsed (pyproject_data : PyValue)

/-- `Config._read_configuration_from_pyproject_toml`: returns
`pyproject_data["tool"]["deptry"]`; any exception inside the `try` (missing
file, parse error, missing or unindexable key) is swallowed by the bare
`except`, which logs and returns `None`. -/
def read_configuration_from_pyproject_toml (file : PyprojectFile) : Option PyValue × List String :=
  match file with
  | .absent => (Option.none, [noConfigLogMsg])
  | .unparseable => (Option.none, [noConfigLogMsg])
  | .parsed pyproject_data =>
      match pyGetItem pyproject_data "tool" with
      | .error _ => (Option.none, [noConfigLogMsg])
      | .ok t =>
          match pyGetItem t "deptry" with
          | .error _ => (Option.none, [noConfigLogMsg])
          | .ok d => (some d, [])

/-- `Config._override_with_toml_argument`: if `argument in pyproject_toml_config`,
assign the found value and log.  The membership test and the indexing are
outside any `try`, so a `TypeError`/`KeyError` here propagates. -/
def override_with_toml_argument (argument : String) (cfg : Config)
    (pyproject_toml_config : PyValue) : Except String (Config × List String) :=
  match pyIn argument pyproject_toml_config with
  | .error e => .error e
  | .ok false => .ok (cfg, [])
  | .ok true =>
      match pyGetItem pyproject_toml_config argument with
      | .error e => .error e
      | .ok value => .ok (cfg.setattr argument value, [log_changed_by_pyproject_toml argument value])

/-- The eight `_override_with_toml_argument` call sites of
`_override_config_with_pyproject_toml`, in source order. -/
def tomlArgs : List String :=
  ["ignore_obsolete", "ignore_missing", "ignore_transitive", "skip_missing",
   "skip_obsolete", "skip_transitive", "ignore_directories", "ignore_notebooks"]

/-- Sequentially apply `override_with_toml_argument` for each name, stopping at
the first raised exception and concatenating the log lines. -/
def applyTomlArguments : List String → Config → PyValue → Except String (Config × List String)
  | [], cfg, _ => .ok (cfg, [])
  | a :: rest, cfg, v =>
      match override_with_toml_argument a cfg v with
      | .error e => .error e
      | .ok (c1, l1) =>
          match applyTomlArguments rest c1 v with
          | .error e => .error e
          | .ok (c2, l2) => .ok (c2, l1 ++ l2)

/-- `Config._override_config_with_pyproject_toml`: read the manifest section;
`if pyproject_toml_config:` skips both `None` and any falsy value (in
particular an empty section dict); otherwise run the eight per-argument
overrides in source order. -/
def override_config_with_pyproject_toml (cfg : Config) (file : PyprojectFile) :
    Except String (Config × List String) :=
  match read_configuration_from_pyproject_toml file with
  | (Option.none, logs) => .ok (cfg, logs)
  | (some pyproject_toml_config, logs) =>
      if pyTruthy pyproject_toml_config then
        match applyTomlArguments tomlArgs cfg pyproject_toml_config with
        | .error e => .error e
        | .ok (c, ls) => .ok (c, logs ++ ls)
      else .ok (cfg, logs)

/-- The eight keyword arguments of `Config.__init__` /
`_override_config_with_cli_arguments`.  Python represents an omitted override
as `None`, so each slot is just a `PyValue`. -/
structure CliArgs where
  ignore_obsolete : PyValue
  ignore_missing : PyValue
  ignore_transitive : PyValue
  ignore_directories : PyValue
  ignore_notebooks : PyValue
  skip_obsolete : PyValue
  skip_missing : PyValue
  skip_transitive : PyValue

/-- All overrides omitted (`None` for every parameter). -/
def cliNone : CliArgs :=
  ⟨.pyNone, .pyNone, .pyNone, .pyNone, .pyNone, .pyNone, .pyNone, .pyNone⟩

/-- One `if <arg>:` block of `_override_config_with_cli_arguments`: when the
argument is truthy, assign it to its attribute and append the log line. -/
def cli_step_ignore_obsolete (r : Config × List String) (args : CliArgs) : Config × List String :=
  if pyTruthy args.ignore_obsolete then
    ({ r.1 with ignore_obsolete := some args.ignore_obsolete },
     r.2 ++ [log_changed_by_command_line_argument "ignore_obsolete" args.ignore_obsolete])
  else r

/-- The `ignore_missing` block of `_override_config_with_cli_arguments`. -/
def cli_step_ignore_missing (r : Config × List String) (args : CliArgs) : Config × List String :=
  if pyTruthy args.ignore_missing then
    ({ r.1 with ignore_missing := some args.ignore_missing },
     r.2 ++ [log_changed_by_command_line_argument "ignore_missing" args.ignore_missing])
  else r

/-- The `ignore_transitive` block of `_override_config_with_cli_arguments`. -/
def cli_step_ignore_transitive (r : Config × List String) (args : CliArgs) : Config × List String :=
  if pyTruthy args.ignore_transitive then
    ({ r.1 with ignore_transitive := some args.ignore_transitive },
     r.2 ++ [log_changed_by_command_line_argument "ignore_transitive" args.ignore_transitive])
  else r

/-- The `skip_obsolete` block of `_override_config_with_cli_arguments`. -/
def cli_step_skip_obsolete (r : Config × List String) (args : CliArgs) : Config × List String :=
  if pyTruthy args.skip_obsolete then
    ({ r.1 with skip_obsolete := some args.skip_obsolete },
     r.2 ++ [log_changed_by_command_line_argument "skip_obsolete" args.skip_obsolete])
  else r

/-- The `skip_missing` block of `_override_config_with_cli_arguments`. -/
def cli_step_skip_missing (r : Config × List String) (args : CliArgs) : Config × List String :=
  if pyTruthy args.skip_missing then
    ({ r.1 with skip_missing := some args.skip_missing },
     r.2 ++ [log_changed_by_command_line_argument "skip_missing" args.skip_missing])
  else r

/-- The `skip_transitive` block of `_override_config_with_cli_arguments`. -/
def cli_step_skip_transitive (r : Config × List String) (args : CliArgs) : Config × List String :=
  if pyTruthy args.skip_transitive then
    ({ r.1 with skip_transitive := some args.skip_transitive },
     r.2 ++ [log_changed_by_command_line_argument "skip_transitive" args.skip_transitive])
  else r

/-- The `ignore_directories` block of `_override_config_with_cli_arguments`. -/
def cli_step_ignore_directories (r : Config × List String) (args : CliArgs) : Config × List String :=
  if pyTruthy args.ignore_directories then
    ({ r.1 with ignore_directories := some args.ignore_directories },
     r.2 ++ [log_changed_by_command_line_argument "ignore_directories" args.ignore_directories])
  else r

/-- The `ignore_notebooks` block of `_override_config_with_cli_arguments`. -/
def cli_step_ignore_notebooks (r : Config × List String) (args : CliArgs) : Config × List String :=
  if pyTruthy args.ignore_notebooks then
    ({ r.1 with ignore_notebooks := some args.ignore_notebooks },
     r.2 ++ [log_changed_by_command_line_argument "ignore_notebooks" args.ignore_notebooks])
  else r

/-- `Config._override_config_with_cli_arguments`: the eight `if <arg>:` blocks
in source order, starting from the incoming configuration and an empty log. -/
def override_config_with_cli_arguments (cfg : Config) (args : CliArgs) : Config × List String :=
  cli_step_ignore_notebooks
    (cli_step_ignore_directories
      (cli_step_skip_transitive
        (cli_step_skip_missing
          (cli_step_skip_obsolete
            (cli_step_ignore_transitive
              (cli_step_ignore_missing
                (cli_step_ignore_obsolete (cfg, []) args)
                args)
              args)
            args)
          args)
        args)
      args)
    args

/-- `Config.__init__`: defaults, then pyproject.toml, then CLI arguments.
Returns the constructed object and the debug log, or the uncaught exception. -/
def Config.init (file : PyprojectFile) (args : CliArgs) : Except String (Config × List String) :=
  let cfg0 := Config.set_defaults emptyConfig
  match override_config_with_pyproject_toml cfg0 file with
  | .error e => .error e
  | .ok (cfg1, logs1) =>
      let r := override_config_with_cli_arguments cfg1 args
      .ok (r.1, logs1 ++ r.2)

/-- The eight setting names, in the order of `DEFAULTS`. -/
def eightNames : List String :=
  ["ignore_obsolete", "ignore_missing", "ignore_transitive", "ignore_directories",
   "ignore_notebooks", "skip_obsolete", "skip_missing", "skip_transitive"]

/-- A pyproject.toml document whose `[tool.deptry]` section is `sec`. -/
def mkDoc (sec : List (String × PyValue)) : PyValue :=
  .pyDict [("tool", .pyDict [("deptry", .pyDict sec)])]

/-- The configuration object right after the defaults pass. -/
def defaultsConfig : Config := Config.set_defaults emptyConfig

/-- Every one of the eight attributes has been assigned a value. -/
def Config.allSet (c : Config) : Prop :=
  c.ignore_obsolete.isSome ∧ c.ignore_missing.isSome ∧ c.ignore_transitive.isSome ∧
  c.ignore_directories.isSome ∧ c.ignore_notebooks.isSome ∧ c.skip_obsolete.isSome ∧
  c.skip_missing.isSome ∧ c.skip_transitive.isSome


/-- The eight settings as an enumeration; proof infrastructure tying the
string-keyed attribute operations to plain structure fields. -/
inductive Setting where
  | ignore_obsolete
  | ignore_missing
  | ignore_transitive
  | ignore_directories
  | ignore_notebooks
  | skip_obsolete
  | skip_missing
  | skip_transitive
deriving DecidableEq

/-- The attribute name of a setting. -/
def settingName : Setting → String
  | .ignore_obsolete => "ignore_obsolete"
  | .ignore_missing => "ignore_missing"
  | .ignore_transitive => "ignore_transitive"
  | .ignore_directories => "ignore_directories"
  | .ignore_notebooks => "ignore_notebooks"
  | .skip_obsolete => "skip_obsolete"
  | .skip_missing => "skip_missing"
  | .skip_transitive => "skip_transitive"

/-- The override argument for a given setting (proof infrastructure). -/
def CliArgs.forSetting (args : CliArgs) : Setting → PyValue
  | .ignore_obsolete => args.ignore_obsolete
  | .ignore_missing => args.ignore_missing
  | .ignore_transitive => args.ignore_transitive
  | .ignore_directories => args.ignore_directories
  | .ignore_notebooks => args.ignore_notebooks
  | .skip_obsolete => args.skip_obsolete
  | .skip_missing => args.skip_missing
  | .skip_transitive => args.skip_transitive

/-- Field update by setting. -/
def Config.setS (c : Config) : Setting → PyValue → Config
  | .ignore_obsolete, v => { c with ignore_obsolete := some v }
  | .ignore_missing, v => { c with ignore_missing := some v }
  | .ignore_transitive, v => { c with ignore_transitive := some v }
  | .ignore_directories, v => { c with ignore_directories := some v }
  | .ignore_notebooks, v => { c with ignore_notebooks := some v }
  | .skip_obsolete, v => { c with skip_obsolete := some v }
  | .skip_missing, v => { c with skip_missing := some v }
  | .skip_transitive, v => { c with skip_transitive := some v }

/-- Field projection by setting. -/
def Config.getS (c : Config) : Setting → Option PyValue
  | .ignore_obsolete => c.ignore_obsolete
  | .ignore_missing => c.ignore_missing
  | .ignore_transitive => c.ignore_transitive
  | .ignore_directories => c.ignore_directories
  | .ignore_notebooks => c.ignore_notebooks
  | .skip_obsolete => c.skip_obsolete
  | .skip_missing => c.skip_missing
  | .skip_transitive => c.skip_transitive

/-- Pure description of what the per-argument toml overrides do on a dict
section: assign each listed setting whose name is present in `sec`, in order,
collecting the log lines. -/
def tomlFoldS : List Setting → Config → List (String × PyValue) → Config × List String
  | [], cfg, _ => (cfg, [])
  | s :: rest, cfg, sec =>
      match sec.lookup (settingName s) with
      | some v =>
          let r := tomlFoldS rest (cfg.setS s v) sec
          (r.1, log_changed_by_pyproject_toml (settingName s) v :: r.2)
      | Option.none => tomlFoldS rest cfg sec

/-- The toml-pass call sites of `_override_config_with_pyproject_toml` as
settings, in source order. -/
def tomlArgsS : List Setting :=
  [.ignore_obsolete, .ignore_missing, .ignore_transitive, .skip_missing,
   .skip_obsolete, .skip_transitive, .ignore_directories, .ignore_notebooks]

lemma setattr_name (s : Setting) (c : Config) (v : PyValue) :
    c.setattr (settingName s) v = c.setS s v := by
  cases s <;> simp [settingName, Config.setattr, Config.setS]

lemma getattr_name (s : Setting) (c : Config) :
    c.getattr (settingName s) = c.getS s := by
  cases s <;> simp [settingName, Config.getattr, Config.getS]

lemma getS_setS (c : Config) (s t : Setting) (v : PyValue) :
    (c.setS s v).getS t = if s = t then some v else c.getS t := by
  cases s <;> cases t <;> simp [Config.setS, Config.getS]

lemma allSet_setS (c : Config) (s : Setting) (v : PyValue) (h : c.allSet) :
    (c.setS s v).allSet := by
  cases s <;> simp_all [Config.setS, Config.allSet]

lemma settingName_inj (s t : Setting) (h : settingName s = settingName t) : s = t := by
  cases s <;> cases t <;> first | rfl | (exfalso; simp [settingName] at h)

lemma tomlArgs_eq_map : tomlArgs = tomlArgsS.map settingName := by
  simp [tomlArgs, tomlArgsS, settingName]

lemma eightNames_eq_map :
    eightNames = [Setting.ignore_obsolete, .ignore_missing, .ignore_transitive,
      .ignore_directories, .ignore_notebooks, .skip_obsolete, .skip_missing,
      .skip_transitive].map settingName := by
  simp [eightNames, settingName]

lemma override_toml_dict_none (a : String) (cfg : Config) (sec : List (String × PyValue))
    (h : sec.lookup a = Option.none) :
    override_with_toml_argument a cfg (.pyDict sec) = .ok (cfg, []) := by
  simp [override_with_toml_argument, pyIn, pyGetItem, h]

lemma override_toml_dict_some (a : String) (cfg : Config) (sec : List (String × PyValue))
    (v : PyValue) (h : sec.lookup a = some v) :
    override_with_toml_argument a cfg (.pyDict sec) =
      .ok (cfg.setattr a v, [log_changed_by_pyproject_toml a v]) := by
  simp [override_with_toml_argument, pyIn, pyGetItem, h]

lemma applyTomlArguments_map (ss : List Setting) (cfg : Config)
    (sec : List (String × PyValue)) :
    applyTomlArguments (ss.map settingName) cfg (.pyDict sec) = .ok (tomlFoldS ss cfg sec) := by
  induction ss generalizing cfg with
  | nil => rfl
  | cons s rest ih =>
      rw [List.map_cons, applyTomlArguments]
      cases h : sec.lookup (settingName s) with
      | none => simp [override_toml_dict_none (settingName s) cfg sec h, ih, tomlFoldS, h]
      | some v =>
          simp [override_toml_dict_some (settingName s) cfg sec v h, ih, tomlFoldS, h,
            setattr_name]

lemma tomlFoldS_getS_of_lookup_none (ss : List Setting) (cfg : Config)
    (sec : List (String × PyValue)) (b : Setting)
    (hsec : sec.lookup (settingName b) = Option.none) :
    ((tomlFoldS ss cfg sec).1).getS b = cfg.getS b := by
  induction ss generalizing cfg with
  | nil => rfl
  | cons s rest ih =>
      cases h : sec.lookup (settingName s) with
      | none =>
          rw [tomlFoldS, h]
          exact ih cfg
      | some v =>
          have hsb : s ≠ b := fun e => by rw [e, hsec] at h; cases h
          rw [tomlFoldS, h]
          show ((tomlFoldS rest (cfg.setS s v) sec).1).getS b = cfg.getS b
          rw [ih (cfg.setS s v), getS_setS]
          simp [hsb]

lemma tomlFoldS_getS_of_not_mem (ss : List Setting) (cfg : Config)
    (sec : List (String × PyValue)) (b : Setting) (hb : b ∉ ss) :
    ((tomlFoldS ss cfg sec).1).getS b = cfg.getS b := by
  induction ss generalizing cfg with
  | nil => rfl
  | cons s rest ih =>
      have hsb : s ≠ b := fun e => hb (e ▸ List.mem_cons_self s rest)
      have hbrest : b ∉ rest := fun hh => hb (List.mem_cons_of_mem s hh)
      cases h : sec.lookup (settingName s) with
      | none =>
          rw [tomlFoldS, h]
          exact ih cfg hbrest
      | some v =>
          rw [tomlFoldS, h]
          show ((tomlFoldS rest (cfg.setS s v) sec).1).getS b = cfg.getS b
          rw [ih (cfg.setS s v) hbrest, getS_setS]
          simp [hsb]

lemma tomlFoldS_getS_of_lookup_some (ss : List Setting) (cfg : Config)
    (sec : List (String × PyValue)) (b : Setting) (v : PyValue)
    (hsec : sec.lookup (settingName b) = some v) (hmem : b ∈ ss) :
    ((tomlFoldS ss cfg sec).1).getS b = some v := by
  induction ss generalizing cfg with
  | nil => cases hmem
  | cons s rest ih =>
      by_cases hsb : s = b
      · subst hsb
        rw [tomlFoldS, hsec]
        show ((tomlFoldS rest (cfg.setS s v) sec).1).getS s = some v
        by_cases hbr : s ∈ rest
        · exact ih (cfg.setS s v) hbr
        · rw [tomlFoldS_getS_of_not_mem rest (cfg.setS s v) sec s hbr, getS_setS]
          simp
      · have hbrest : b ∈ rest := by
          cases List.mem_cons.mp hmem with
          | inl hh => exact absurd hh.symm hsb
          | inr hh => exact hh
        cases h : sec.lookup (settingName s) with
        | none =>
            rw [tomlFoldS, h]
            exact ih cfg hbrest
        | some w =>
            rw [tomlFoldS, h]
            show ((tomlFoldS rest (cfg.setS s w) sec).1).getS b = some v
            exact ih (cfg.setS s w) hbrest

lemma tomlFoldS_allSet (ss : List Setting) (cfg : Config)
    (sec : List (String × PyValue)) (h : cfg.allSet) :
    ((tomlFoldS ss cfg sec).1).allSet := by
  induction ss generalizing cfg with
  | nil => exact h
  | cons s rest ih =>
      cases hl : sec.lookup (settingName s) with
      | none =>
          rw [tomlFoldS, hl]
          exact ih cfg h
      | some v =>
          rw [tomlFoldS, hl]
          show ((tomlFoldS rest (cfg.setS s v) sec).1).allSet
          exact ih (cfg.setS s v) (allSet_setS cfg s v h)


lemma cli_step_ignore_obsolete_getS (r : Config × List String) (args : CliArgs) (t : Setting) :
    ((cli_step_ignore_obsolete r args).1).getS t =
      if t = .ignore_obsolete then
        (if pyTruthy args.ignore_obsolete then some args.ignore_obsolete else (r.1).getS t)
      else (r.1).getS t := by
  cases t <;> simp only [cli_step_ignore_obsolete] <;> split_ifs <;> simp_all [Config.getS]

lemma cli_step_ignore_missing_getS (r : Config × List String) (args : CliArgs) (t : Setting) :
    ((cli_step_ignore_missing r args).1).getS t =
      if t = .ignore_missing then
        (if pyTruthy args.ignore_missing then some args.ignore_missing else (r.1).getS t)
      else (r.1).getS t := by
  cases t <;> simp only [cli_step_ignore_missing] <;> split_ifs <;> simp_all [Config.getS]

lemma cli_step_ignore_transitive_getS (r : Config × List String) (args : CliArgs) (t : Setting) :
    ((cli_step_ignore_transitive r args).1).getS t =
      if t = .ignore_transitive then
        (if pyTruthy args.ignore_transitive then some args.ignore_transitive else (r.1).getS t)
      else (r.1).getS t := by
  cases t <;> simp only [cli_step_ignore_transitive] <;> split_ifs <;> simp_all [Config.getS]

lemma cli_step_skip_obsolete_getS (r : Config × List String) (args : CliArgs) (t : Setting) :
    ((cli_step_skip_obsolete r args).1).getS t =
      if t = .skip_obsolete then
        (if pyTruthy args.skip_obsolete then some args.skip_obsolete else (r.1).getS t)
      else (r.1).getS t := by
  cases t <;> simp only [cli_step_skip_obsolete] <;> split_ifs <;> simp_all [Config.getS]

lemma cli_step_skip_missing_getS (r : Config × List String) (args : CliArgs) (t : Setting) :
    ((cli_step_skip_missing r args).1).getS t =
      if t = .skip_missing then
        (if pyTruthy args.skip_missing then some args.skip_missing else (r.1).getS t)
      else (r.1).getS t := by
  cases t <;> simp only [cli_step_skip_missing] <;> split_ifs <;> simp_all [Config.getS]

lemma cli_step_skip_transitive_getS (r : Config × List String) (args : CliArgs) (t : Setting) :
    ((cli_step_skip_transitive r args).1).getS t =
      if t = .skip_transitive then
        (if pyTruthy args.skip_transitive then some args.skip_transitive else (r.1).getS t)
      else (r.1).getS t := by
  cases t <;> simp only [cli_step_skip_transitive] <;> split_ifs <;> simp_all [Config.getS]

lemma cli_step_ignore_directories_getS (r : Config × List String) (args : CliArgs) (t : Setting) :
    ((cli_step_ignore_directories r args).1).getS t =
      if t = .ignore_directories then
        (if pyTruthy args.ignore_directories then some args.ignore_directories else (r.1).getS t)
      else (r.1).getS t := by
  cases t <;> simp only [cli_step_ignore_directories] <;> split_ifs <;> simp_all [Config.getS]

lemma cli_step_ignore_notebooks_getS (r : Config × List String) (args : CliArgs) (t : Setting) :
    ((cli_step_ignore_notebooks r args).1).getS t =
      if t = .ignore_notebooks then
        (if pyTruthy args.ignore_notebooks then some args.ignore_notebooks else (r.1).getS t)
      else (r.1).getS t := by
  cases t <;> simp only [cli_step_ignore_notebooks] <;> split_ifs <;> simp_all [Config.getS]

lemma cli_pass_getS (cfg : Config) (args : CliArgs) (t : Setting) :
    ((override_config_with_cli_arguments cfg args).1).getS t =
      if pyTruthy (args.forSetting t) then some (args.forSetting t) else cfg.getS t := by
  cases t <;>
    simp [override_config_with_cli_arguments, CliArgs.forSetting,
      cli_step_ignore_obsolete_getS, cli_step_ignore_missing_getS,
      cli_step_ignore_transitive_getS, cli_step_skip_obsolete_getS,
      cli_step_skip_missing_getS, cli_step_skip_transitive_getS,
      cli_step_ignore_directories_getS, cli_step_ignore_notebooks_getS]

lemma allSet_of_getS (c : Config) (h : ∀ t, (c.getS t).isSome) : c.allSet :=
  ⟨h .ignore_obsolete, h .ignore_missing, h .ignore_transitive, h .ignore_directories,
   h .ignore_notebooks, h .skip_obsolete, h .skip_missing, h .skip_transitive⟩

lemma getS_of_allSet (c : Config) (h : c.allSet) (t : Setting) : (c.getS t).isSome := by
  obtain ⟨h1, h2, h3, h4, h5, h6, h7, h8⟩ := h
  cases t <;> assumption

lemma cli_pass_allSet (cfg : Config) (args : CliArgs) (h : cfg.allSet) :
    ((override_config_with_cli_arguments cfg args).1).allSet := by
  refine allSet_of_getS _ (fun t => ?_)
  rw [cli_pass_getS]
  split_ifs
  · rfl
  · exact getS_of_allSet cfg h t

lemma defaultsConfig_allSet : defaultsConfig.allSet :=
  ⟨rfl, rfl, rfl, rfl, rfl, rfl, rfl, rfl⟩

lemma read_mkDoc (sec : List (String × PyValue)) :
    read_configuration_from_pyproject_toml (.parsed (mkDoc sec)) = (some (.pyDict sec), []) := rfl

lemma toml_pass_read_none (cfg : Config) (file : PyprojectFile)
    (h : (read_configuration_from_pyproject_toml file).1 = Option.none) :
    override_config_with_pyproject_toml cfg file =
      .ok (cfg, (read_configuration_from_pyproject_toml file).2) := by
  rcases hr : read_configuration_from_pyproject_toml file with ⟨o, logs⟩
  rw [hr] at h
  have ho : o = Option.none := h
  subst ho
  unfold override_config_with_pyproject_toml
  rw [hr]

lemma init_read_none (file : PyprojectFile) (args : CliArgs)
    (h : (read_configuration_from_pyproject_toml file).1 = Option.none) :
    Config.init file args =
      .ok ((override_config_with_cli_arguments defaultsConfig args).1,
        (read_configuration_from_pyproject_toml file).2 ++
          (override_config_with_cli_arguments defaultsConfig args).2) := by
  have key := toml_pass_read_none (Config.set_defaults emptyConfig) file h
  simp only [Config.init]
  rw [key]
  rfl

lemma toml_pass_mkDoc (cfg : Config) (sec : List (String × PyValue))
    (hne : sec.isEmpty = false) :
    override_config_with_pyproject_toml cfg (.parsed (mkDoc sec)) =
      .ok (tomlFoldS tomlArgsS cfg sec) := by
  unfold override_config_with_pyproject_toml
  rw [read_mkDoc]
  show (if pyTruthy (.pyDict sec) then _ else _) = _
  rw [show pyTruthy (.pyDict sec) = !sec.isEmpty from rfl, hne]
  simp only [Bool.not_false, if_true]
  rw [tomlArgs_eq_map, applyTomlArguments_map]
  rfl

lemma init_mkDoc (sec : List (String × PyValue)) (args : CliArgs)
    (c : Config) (l : List String) (hne : sec.isEmpty = false)
    (hfold : tomlFoldS tomlArgsS (Config.set_defaults emptyConfig) sec = (c, l)) :
    Config.init (.parsed (mkDoc sec)) args =
      .ok ((override_config_with_cli_arguments c args).1,
        l ++ (override_config_with_cli_arguments c args).2) := by
  have key := toml_pass_mkDoc (Config.set_defaults emptyConfig) sec hne
  rw [hfold] at key
  simp only [Config.init]
  rw [key]

lemma allSet_setattr (c : Config) (a : String) (v : PyValue) (h : c.allSet) :
    (c.setattr a v).allSet := by
  unfold Config.setattr
  unfold Config.allSet at h ⊢
  split_ifs <;> simp_all

lemma set_defaults_allSet (c0 : Config) : (Config.set_defaults c0).allSet :=
  ⟨rfl, rfl, rfl, rfl, rfl, rfl, rfl, rfl⟩

lemma cliNone_falsy (t : Setting) : pyTruthy (cliNone.forSetting t) = false := by
  cases t <;> rfl

lemma cli_pass_falsy_getS (cfg : Config) (args : CliArgs)
    (hargs : ∀ t, pyTruthy (args.forSetting t) = false) (t : Setting) :
    ((override_config_with_cli_arguments cfg args).1).getS t = cfg.getS t := by
  rw [cli_pass_getS, hargs t]
  simp

lemma settingName_mem (s : Setting) : settingName s ∈ eightNames := by
  cases s <;> simp [settingName, eightNames]

lemma setting_mem_tomlArgsS (s : Setting) : s ∈ tomlArgsS := by
  cases s <;> simp [tomlArgsS]

lemma eight_mem_setting (name : String) (h : name ∈ eightNames) :
    ∃ s : Setting, settingName s = name := by
  fin_cases h
  exacts [⟨.ignore_obsolete, rfl⟩, ⟨.ignore_missing, rfl⟩, ⟨.ignore_transitive, rfl⟩,
    ⟨.ignore_directories, rfl⟩, ⟨.ignore_notebooks, rfl⟩, ⟨.skip_obsolete, rfl⟩,
    ⟨.skip_missing, rfl⟩, ⟨.skip_transitive, rfl⟩]

lemma read_logs (file : PyprojectFile) :
    (read_configuration_from_pyproject_toml file).2 =
      if (read_configuration_from_pyproject_toml file).1.isSome then [] else [noConfigLogMsg] := by
  cases file with
  | absent => rfl
  | unparseable => rfl
  | parsed d =>
      unfold read_configuration_from_pyproject_toml
      cases h1 : pyGetItem d "tool" with
      | error e => simp [h1]
      | ok t => cases h2 : pyGetItem t "deptry" <;> simp [h1, h2]

lemma tomlFoldS_nil_sec (ss : List Setting) (cfg : Config) :
    tomlFoldS ss cfg [] = (cfg, []) := by
  induction ss with
  | nil => rfl
  | cons s rest ih => rw [tomlFoldS]; exact ih

lemma tomlFoldS_irrelevant_key (ss : List Setting) (cfg : Config) (k : String) (v : PyValue)
    (sec : List (String × PyValue)) (hk : ∀ s ∈ ss, k ≠ settingName s) :
    tomlFoldS ss cfg ((k, v) :: sec) = tomlFoldS ss cfg sec := by
  induction ss generalizing cfg with
  | nil => rfl
  | cons s rest ih =>
      have hks : (settingName s == k) = false := by
        simp only [beq_eq_false_iff_ne, ne_eq]
        exact fun e => hk s (List.mem_cons_self s rest) e.symm
      have hrest : ∀ u ∈ rest, k ≠ settingName u := fun u hu => hk u (List.mem_cons_of_mem s hu)
      have hlk : List.lookup (settingName s) ((k, v) :: sec) = List.lookup (settingName s) sec := by
        simp [List.lookup, hks]
      rw [tomlFoldS, tomlFoldS, hlk]
      cases hl : List.lookup (settingName s) sec with
      | none => exact ih cfg hrest
      | some w => simp only [ih (cfg.setS s w) hrest]

lemma toml_pass_read_dict (cfg : Config) (file : PyprojectFile) (sec : List (String × PyValue))
    (h : (read_configuration_from_pyproject_toml file).1 = some (.pyDict sec))
    (hne : sec.isEmpty = false) :
    override_config_with_pyproject_toml cfg file =
      .ok ((tomlFoldS tomlArgsS cfg sec).1,
        (read_configuration_from_pyproject_toml file).2 ++ (tomlFoldS tomlArgsS cfg sec).2) := by
  rcases hr : read_configuration_from_pyproject_toml file with ⟨o, logs⟩
  rw [hr] at h
  have ho : o = some (.pyDict sec) := h
  subst ho
  unfold override_config_with_pyproject_toml
  rw [hr]
  show (if pyTruthy (.pyDict sec) then _ else _) = _
  rw [show pyTruthy (.pyDict sec) = !sec.isEmpty from rfl, hne]
  simp only [Bool.not_false, if_true]
  rw [tomlArgs_eq_map, applyTomlArguments_map]

lemma init_read_dict (file : PyprojectFile) (args : CliArgs) (sec : List (String × PyValue))
    (c : Config) (l : List String)
    (h : (read_configuration_from_pyproject_toml file).1 = some (.pyDict sec))
    (hne : sec.isEmpty = false)
    (hfold : tomlFoldS tomlArgsS (Config.set_defaults emptyConfig) sec = (c, l)) :
    Config.init file args =
      .ok ((override_config_with_cli_arguments c args).1,
        ((read_configuration_from_pyproject_toml file).2 ++ l) ++
          (override_config_with_cli_arguments c args).2) := by
  have key := toml_pass_read_dict (Config.set_defaults emptyConfig) file sec h hne
  rw [hfold] at key
  have key2 : override_config_with_pyproject_toml (Config.set_defaults emptyConfig) file =
      .ok (c, (read_configuration_from_pyproject_toml file).2 ++ l) := key
  simp only [Config.init]
  rw [key2]

lemma init_read_dict_empty (file : PyprojectFile) (args : CliArgs)
    (h : (read_configuration_from_pyproject_toml file).1 = some (.pyDict [])) :
    Config.init file args =
      .ok ((override_config_with_cli_arguments defaultsConfig args).1,
        (read_configuration_from_pyproject_toml file).2 ++
          (override_config_with_cli_arguments defaultsConfig args).2) := by
  rcases hr : read_configuration_from_pyproject_toml file with ⟨o, logs⟩
  rw [hr] at h
  have ho : o = some (.pyDict []) := h
  subst ho
  have key : override_config_with_pyproject_toml (Config.set_defaults emptyConfig) file =
      .ok (Config.set_defaults emptyConfig, logs) := by
    unfold override_config_with_pyproject_toml
    rw [hr]
    rfl
  simp only [Config.init]
  rw [key]
  rfl

lemma init_mkDoc_config (sec : List (String × PyValue)) (args : CliArgs)
    (c : Config) (l : List String)
    (h : Config.init (.parsed (mkDoc sec)) args = .ok (c, l)) :
    c = (override_config_with_cli_arguments
          (tomlFoldS tomlArgsS (Config.set_defaults emptyConfig) sec).1 args).1 := by
  cases hq : sec.isEmpty with
  | true =>
      obtain rfl : sec = [] := by
        cases sec with
        | nil => rfl
        | cons a b => cases hq
      have h2 := init_read_dict_empty (.parsed (mkDoc [])) args rfl
      rw [h2] at h
      simp only [Except.ok.injEq, Prod.mk.injEq] at h
      rw [tomlFoldS_nil_sec]
      exact h.1.symm
  | false =>
      rcases hf : tomlFoldS tomlArgsS (Config.set_defaults emptyConfig) sec with ⟨c0, l0⟩
      have h2 := init_mkDoc sec args c0 l0 hq hf
      rw [h2] at h
      simp only [Except.ok.injEq, Prod.mk.injEq] at h
      exact h.1.symm

lemma override_toml_allSet (a : String) (cfg : Config) (v : PyValue) (c1 : Config)
    (l1 : List String) (h : override_with_toml_argument a cfg v = .ok (c1, l1))
    (hc : cfg.allSet) : c1.allSet := by
  unfold override_with_toml_argument at h
  cases h1 : pyIn a v with
  | error e => simp [h1] at h
  | ok b =>
      simp only [h1] at h
      cases b with
      | false =>
          simp only [Except.ok.injEq, Prod.mk.injEq] at h
          rw [← h.1]
          exact hc
      | true =>
          cases h2 : pyGetItem v a with
          | error e => simp [h2] at h
          | ok value =>
              simp only [h2, Except.ok.injEq, Prod.mk.injEq] at h
              rw [← h.1]
              exact allSet_setattr cfg a value hc

lemma applyTomlArguments_allSet (names : List String) (cfg : Config) (v : PyValue)
    (c : Config) (l : List String)
    (h : applyTomlArguments names cfg v = .ok (c, l)) (hc : cfg.allSet) : c.allSet := by
  induction names generalizing cfg l with
  | nil =>
      unfold applyTomlArguments at h
      simp only [Except.ok.injEq, Prod.mk.injEq] at h
      rw [← h.1]
      exact hc
  | cons a rest ih =>
      rw [applyTomlArguments] at h
      cases h1 : override_with_toml_argument a cfg v with
      | error e => simp [h1] at h
      | ok p =>
          obtain ⟨c1, l1⟩ := p
          simp only [h1] at h
          cases h2 : applyTomlArguments rest c1 v with
          | error e => simp [h2] at h
          | ok q =>
              obtain ⟨c2, l2⟩ := q
              simp only [h2, Except.ok.injEq, Prod.mk.injEq] at h
              obtain ⟨h4, h5⟩ := h
              subst h4
              exact ih c1 l2 h2 (override_toml_allSet a cfg v c1 l1 h1 hc)

lemma toml_pass_allSet (cfg : Config) (file : PyprojectFile) (c : Config) (l : List String)
    (h : override_config_with_pyproject_toml cfg file = .ok (c, l)) (hc : cfg.allSet) :
    c.allSet := by
  unfold override_config_with_pyproject_toml at h
  rcases hr : read_configuration_from_pyproject_toml file with ⟨o, logs⟩
  rw [hr] at h
  cases o with
  | none =>
      simp only [Except.ok.injEq, Prod.mk.injEq] at h
      rw [← h.1]
      exact hc
  | some v =>
      cases hv : pyTruthy v with
      | false =>
          simp only [hv, Bool.false_eq_true, if_false, Except.ok.injEq, Prod.mk.injEq] at h
          rw [← h.1]
          exact hc
      | true =>
          simp only [hv, if_true] at h
          cases h3 : applyTomlArguments tomlArgs cfg v with
          | error e => simp [h3] at h
          | ok p =>
              obtain ⟨c0, ls⟩ := p
              simp only [h3, Except.ok.injEq, Prod.mk.injEq] at h
              rw [← h.1]
              exact applyTomlArguments_allSet tomlArgs cfg v c0 ls h3 hc

lemma init_allSet (file : PyprojectFile) (args : CliArgs) (c : Config) (logs : List String)
    (h : Config.init file args = .ok (c, logs)) : c.allSet := by
  simp only [Config.init] at h
  cases h1 : override_config_with_pyproject_toml (Config.set_defaults emptyConfig) file with
  | error e => simp [h1] at h
  | ok p =>
      obtain ⟨c1, l1⟩ := p
      simp only [h1, Except.ok.injEq, Prod.mk.injEq] at h
      have hc1 : c1.allSet :=
        toml_pass_allSet (Config.set_defaults emptyConfig) file c1 l1 h1
          (set_defaults_allSet emptyConfig)
      rw [← h.1]
      exact cli_pass_allSet c1 args hc1

lemma init_manifest_getS (s : Setting) (sec : List (String × PyValue)) (v : PyValue)
    (hsec : sec.lookup (settingName s) = some v) :
    ∃ c logs, Config.init (.parsed (mkDoc sec)) cliNone = .ok (c, logs) ∧ c.getS s = some v := by
  have hne : sec.isEmpty = false := by
    cases sec with
    | nil => cases hsec
    | cons a b => rfl
  rcases hf : tomlFoldS tomlArgsS (Config.set_defaults emptyConfig) sec with ⟨c0, l0⟩
  refine ⟨_, _, init_mkDoc sec cliNone c0 l0 hne hf, ?_⟩
  rw [cli_pass_falsy_getS c0 cliNone cliNone_falsy s]
  have h2 := tomlFoldS_getS_of_lookup_some tomlArgsS (Config.set_defaults emptyConfig) sec s v
    hsec (setting_mem_tomlArgsS s)
  rw [hf] at h2
  exact h2

lemma init_single_key_other (s t : Setting) (hst : t ≠ s) (v : PyValue) (c : Config)
    (l : List String)
    (h : Config.init (.parsed (mkDoc [(settingName s, v)])) cliNone = .ok (c, l)) :
    c.getS t = defaultsConfig.getS t := by
  have hc := init_mkDoc_config [(settingName s, v)] cliNone c l h
  rw [hc, cli_pass_falsy_getS _ cliNone cliNone_falsy t]
  have hlk : List.lookup (settingName t) [(settingName s, v)] = Option.none := by
    have hb : (settingName t == settingName s) = false := by
      simp only [beq_eq_false_iff_ne, ne_eq]
      exact fun e => hst (settingName_inj t s e)
    simp [List.lookup, hb]
  exact tomlFoldS_getS_of_lookup_none tomlArgsS (Config.set_defaults emptyConfig) _ t hlk

/-- C1: In `_override_config_with_cli_arguments`, a caller-supplied override is
applied if and only if it is truthy: a truthy override replaces the current
(defaults-or-manifest) value of its setting, a falsy or absent one leaves it
unchanged; in particular an override `skip_obsolete=false` cannot undo a
manifest `skip_obsolete = true`. -/
theorem cli_override_applied_iff_truthy :
    (∀ (cfg : Config) (args : CliArgs) (t : Setting),
        ((override_config_with_cli_arguments cfg args).1).getS t =
          if pyTruthy (args.forSetting t) then some (args.forSetting t) else cfg.getS t) ∧
    Config.init (.parsed (mkDoc [("skip_obsolete", PyValue.pyBool true)]))
        { cliNone with skip_obsolete := PyValue.pyBool false } =
      .ok ({ defaultsConfig with skip_obsolete := some (PyValue.pyBool true) },
        ["Argument skip_obsolete set to True by pyproject.toml"]) :=
  ⟨cli_pass_getS, rfl⟩

/-- C2: For each of the eight settings, if the manifest section contains a key
of that exact name, the resolved value equals the manifest value regardless of
its truthiness (key existence is the test), and the assignment fully replaces
the prior value. -/
theorem manifest_present_key_overrides_regardless_of_truthiness
    (name : String) (hmem : name ∈ eightNames) (sec : List (String × PyValue)) (v : PyValue)
    (hsec : sec.lookup name = some v) :
    ∃ c logs, Config.init (.parsed (mkDoc sec)) cliNone = .ok (c, logs) ∧
      c.getattr name = some v := by
  obtain ⟨s, rfl⟩ := eight_mem_setting name hmem
  obtain ⟨c, logs, h1, h2⟩ := init_manifest_getS s sec v hsec
  exact ⟨c, logs, h1, (getattr_name s c).trans h2⟩

/-- Witness for C2: an empty-list manifest value for `ignore_directories`
replaces the non-empty default. -/
theorem manifest_present_key_overrides_regardless_of_truthiness_witness :
    ∃ c logs,
      Config.init (.parsed (mkDoc [("ignore_directories", PyValue.pyList [])])) cliNone =
        .ok (c, logs) ∧ c.getattr "ignore_directories" = some (PyValue.pyList []) :=
  manifest_present_key_overrides_regardless_of_truthiness "ignore_directories"
    (by simp [eightNames]) [("ignore_directories", PyValue.pyList [])] (PyValue.pyList []) rfl

/-- C3: When neither the manifest section nor the overrides supply a value,
every setting resolves to its documented default: empty lists for the three
ignore lists, [".venv", "tests"] for ignore_directories, false for the four
booleans. -/
theorem defaults_stand_when_no_source (file : PyprojectFile) (args : CliArgs)
    (hread : (read_configuration_from_pyproject_toml file).1 = Option.none ∨
      ∃ sec, (read_configuration_from_pyproject_toml file).1 = some (PyValue.pyDict sec) ∧
        ∀ n ∈ eightNames, sec.lookup n = Option.none)
    (hargs : ∀ t : Setting, pyTruthy (args.forSetting t) = false) :
    ∃ c logs, Config.init file args = .ok (c, logs) ∧
      c.ignore_obsolete = some (.pyList []) ∧
      c.ignore_missing = some (.pyList []) ∧
      c.ignore_transitive = some (.pyList []) ∧
      c.ignore_directories = some (.pyList [.pyStr ".venv", .pyStr "tests"]) ∧
      c.ignore_notebooks = some (.pyBool false) ∧
      c.skip_obsolete = some (.pyBool false) ∧
      c.skip_missing = some (.pyBool false) ∧
      c.skip_transitive = some (.pyBool false) := by
  cases hread with
  | inl h =>
      refine ⟨_, _, init_read_none file args h, ?_, ?_, ?_, ?_, ?_, ?_, ?_, ?_⟩
      exacts [cli_pass_falsy_getS defaultsConfig args hargs .ignore_obsolete,
        cli_pass_falsy_getS defaultsConfig args hargs .ignore_missing,
        cli_pass_falsy_getS defaultsConfig args hargs .ignore_transitive,
        cli_pass_falsy_getS defaultsConfig args hargs .ignore_directories,
        cli_pass_falsy_getS defaultsConfig args hargs .ignore_notebooks,
        cli_pass_falsy_getS defaultsConfig args hargs .skip_obsolete,
        cli_pass_falsy_getS defaultsConfig args hargs .skip_missing,
        cli_pass_falsy_getS defaultsConfig args hargs .skip_transitive]
  | inr h =>
      obtain ⟨sec, hsec, hnone⟩ := h
      have hlk : ∀ t : Setting, sec.lookup (settingName t) = Option.none :=
        fun t => hnone (settingName t) (settingName_mem t)
      cases hq : sec.isEmpty with
      | true =>
          obtain rfl : sec = [] := by
            cases sec with
            | nil => rfl
            | cons a b => cases hq
          refine ⟨_, _, init_read_dict_empty file args hsec, ?_, ?_, ?_, ?_, ?_, ?_, ?_, ?_⟩
          exacts [cli_pass_falsy_getS defaultsConfig args hargs .ignore_obsolete,
            cli_pass_falsy_getS defaultsConfig args hargs .ignore_missing,
            cli_pass_falsy_getS defaultsConfig args hargs .ignore_transitive,
            cli_pass_falsy_getS defaultsConfig args hargs .ignore_directories,
            cli_pass_falsy_getS defaultsConfig args hargs .ignore_notebooks,
            cli_pass_falsy_getS defaultsConfig args hargs .skip_obsolete,
            cli_pass_falsy_getS defaultsConfig args hargs .skip_missing,
            cli_pass_falsy_getS defaultsConfig args hargs .skip_transitive]
      | false =>
          rcases hf : tomlFoldS tomlArgsS (Config.set_defaults emptyConfig) sec with ⟨c0, l0⟩
          have hc0 : ∀ t, c0.getS t = defaultsConfig.getS t := by
            intro t
            have h3 := tomlFoldS_getS_of_lookup_none tomlArgsS (Config.set_defaults emptyConfig)
              sec t (hlk t)
            rw [hf] at h3
            exact h3
          refine ⟨_, _, init_read_dict file args sec c0 l0 hsec hq hf,
            ?_, ?_, ?_, ?_, ?_, ?_, ?_, ?_⟩
          exacts [(cli_pass_falsy_getS c0 args hargs .ignore_obsolete).trans (hc0 .ignore_obsolete),
            (cli_pass_falsy_getS c0 args hargs .ignore_missing).trans (hc0 .ignore_missing),
            (cli_pass_falsy_getS c0 args hargs .ignore_transitive).trans (hc0 .ignore_transitive),
            (cli_pass_falsy_getS c0 args hargs .ignore_directories).trans (hc0 .ignore_directories),
            (cli_pass_falsy_getS c0 args hargs .ignore_notebooks).trans (hc0 .ignore_notebooks),
            (cli_pass_falsy_getS c0 args hargs .skip_obsolete).trans (hc0 .skip_obsolete),
            (cli_pass_falsy_getS c0 args hargs .skip_missing).trans (hc0 .skip_missing),
            (cli_pass_falsy_getS c0 args hargs .skip_transitive).trans (hc0 .skip_transitive)]

/-- Witness for C3: no manifest file and no overrides yield the documented
defaults. -/
theorem defaults_stand_when_no_source_witness :
    ∃ c logs, Config.init .absent cliNone = .ok (c, logs) ∧
      c.ignore_obsolete = some (.pyList []) ∧
      c.ignore_missing = some (.pyList []) ∧
      c.ignore_transitive = some (.pyList []) ∧
      c.ignore_directories = some (.pyList [.pyStr ".venv", .pyStr "tests"]) ∧
      c.ignore_notebooks = some (.pyBool false) ∧
      c.skip_obsolete = some (.pyBool false) ∧
      c.skip_missing = some (.pyBool false) ∧
      c.skip_transitive = some (.pyBool false) :=
  defaults_stand_when_no_source .absent cliNone (Or.inl rfl) cliNone_falsy

/-- C4: Construction never raises under the documented inputs: a missing
manifest file, a parse error, and an absent `tool.deptry` section all collapse
to the same outcome — the read returns `None` with the same single debug line,
and construction succeeds with the previous layer's values standing. -/
theorem manifest_failures_collapse_softly :
    (read_configuration_from_pyproject_toml .absent = (Option.none, [noConfigLogMsg])) ∧
    (read_configuration_from_pyproject_toml .unparseable = (Option.none, [noConfigLogMsg])) ∧
    (∀ doc, (read_configuration_from_pyproject_toml (.parsed doc)).1 = Option.none →
      read_configuration_from_pyproject_toml (.parsed doc) = (Option.none, [noConfigLogMsg])) ∧
    (∀ (file : PyprojectFile) (args : CliArgs),
      (read_configuration_from_pyproject_toml file).1 = Option.none →
      Config.init file args =
        .ok ((override_config_with_cli_arguments defaultsConfig args).1,
          [noConfigLogMsg] ++ (override_config_with_cli_arguments defaultsConfig args).2)) := by
  refine ⟨rfl, rfl, ?_, ?_⟩
  · intro doc h
    have h2 := read_logs (.parsed doc)
    rw [h] at h2
    simp only [Option.isSome_none, Bool.false_eq_true, if_false] at h2
    rcases hr : read_configuration_from_pyproject_toml (.parsed doc) with ⟨o, logs⟩
    rw [hr] at h h2
    have ho : o = Option.none := h
    have hl : logs = [noConfigLogMsg] := h2
    rw [ho, hl]
  · intro file args h
    have h2 := init_read_none file args h
    rw [read_logs file, h] at h2
    simpa using h2

/-- Witness for C4: construction with a missing manifest file succeeds with the
defaults standing. -/
theorem manifest_failures_collapse_softly_witness :
    Config.init .absent cliNone =
      .ok ((override_config_with_cli_arguments defaultsConfig cliNone).1,
        [noConfigLogMsg] ++ (override_config_with_cli_arguments defaultsConfig cliNone).2) :=
  manifest_failures_collapse_softly.2.2.2 .absent cliNone rfl

/-- C5: For every choice of overrides, resolving with a missing manifest file
and resolving with a manifest whose `tool.deptry` section is present but empty
produce configurations with identical field values. -/
theorem missing_file_equals_empty_section (args : CliArgs) :
    ∃ c1 l1 c2 l2, Config.init .absent args = .ok (c1, l1) ∧
      Config.init (.parsed (mkDoc [])) args = .ok (c2, l2) ∧ c1 = c2 :=
  ⟨_, _, _, _, init_read_none .absent args rfl,
    init_read_dict_empty (.parsed (mkDoc [])) args rfl, rfl⟩

/-- C6: Evaluation showing the bug: a field changed by a command-line override
is logged with source "pyproject.toml" — `_log_changed_by_command_line_argument`
emits the same "by pyproject.toml" text as the manifest logger, so the source
in the log line misidentifies the layer that set the value. -/
theorem cli_change_logged_as_pyproject_toml :
    log_changed_by_command_line_argument "skip_obsolete" (.pyBool true) =
      "Argument skip_obsolete set to True by pyproject.toml" ∧
    Config.init .absent { cliNone with skip_obsolete := PyValue.pyBool true } =
      .ok ({ defaultsConfig with skip_obsolete := some (PyValue.pyBool true) },
        [noConfigLogMsg, "Argument skip_obsolete set to True by pyproject.toml"]) :=
  ⟨rfl, rfl⟩

/-- C7: A manifest value of unexpected type is assigned as-is with no coercion
or validation: a string where a list or boolean was expected, and a list where
a boolean was expected, all land in the resolved field unchanged. -/
theorem manifest_values_not_validated :
    (∀ (name : String), name ∈ eightNames → ∀ (s : String) (sec : List (String × PyValue)),
      sec.lookup name = some (.pyStr s) →
      ∃ c logs, Config.init (.parsed (mkDoc sec)) cliNone = .ok (c, logs) ∧
        c.getattr name = some (.pyStr s)) ∧
    (∀ (xs : List PyValue) (sec : List (String × PyValue)),
      sec.lookup "skip_obsolete" = some (.pyList xs) →
      ∃ c logs, Config.init (.parsed (mkDoc sec)) cliNone = .ok (c, logs) ∧
        c.skip_obsolete = some (.pyList xs)) := by
  constructor
  · intro name hmem s sec hsec
    obtain ⟨st, rfl⟩ := eight_mem_setting name hmem
    obtain ⟨c, logs, h1, h2⟩ := init_manifest_getS st sec (.pyStr s) hsec
    exact ⟨c, logs, h1, (getattr_name st c).trans h2⟩
  · intro xs sec hsec
    obtain ⟨c, logs, h1, h2⟩ := init_manifest_getS .skip_obsolete sec (.pyList xs) hsec
    exact ⟨c, logs, h1, h2⟩

/-- Witness for C7: a string assigned to `ignore_obsolete` and a list assigned
to `skip_obsolete` are both stored unchanged. -/
theorem manifest_values_not_validated_witness :
    (∃ c logs,
      Config.init (.parsed (mkDoc [("ignore_obsolete", PyValue.pyStr "oops")])) cliNone =
        .ok (c, logs) ∧ c.getattr "ignore_obsolete" = some (PyValue.pyStr "oops")) ∧
    (∃ c logs,
      Config.init (.parsed (mkDoc [("skip_obsolete", PyValue.pyList [PyValue.pyStr "a"])]))
          cliNone = .ok (c, logs) ∧
        c.skip_obsolete = some (PyValue.pyList [PyValue.pyStr "a"])) :=
  ⟨manifest_values_not_validated.1 "ignore_obsolete" (by simp [eightNames]) "oops"
      [("ignore_obsolete", PyValue.pyStr "oops")] rfl,
   manifest_values_not_validated.2 [PyValue.pyStr "a"]
      [("skip_obsolete", PyValue.pyList [PyValue.pyStr "a"])] rfl⟩

/-- C8: After construction every setting has a value: the defaults pass assigns
all eight attributes whatever the prior state, and any successful construction
yields a configuration with all eight attributes set. -/
theorem config_always_fully_defined :
    (∀ c0 : Config, (Config.set_defaults c0).allSet) ∧
    (∀ (file : PyprojectFile) (args : CliArgs) (c : Config) (logs : List String),
      Config.init file args = .ok (c, logs) → c.allSet) :=
  ⟨set_defaults_allSet, init_allSet⟩

/-- Witness for C8: the defaults-only construction yields a fully defined
configuration. -/
theorem config_always_fully_defined_witness : defaultsConfig.allSet :=
  config_always_fully_defined.2 .absent cliNone defaultsConfig [noConfigLogMsg] rfl

/-- C9: Only exact, case-sensitive matches of the eight setting names affect
resolution: any other manifest key leaves the result unchanged, and a
recognized key changes only its own field, leaving the other seven at their
prior values. -/
theorem manifest_keys_exact_and_independent :
    (∀ (k : String) (v : PyValue) (sec : List (String × PyValue)) (args : CliArgs),
      k ∉ eightNames →
      ∀ c1 l1 c2 l2,
        Config.init (.parsed (mkDoc ((k, v) :: sec))) args = .ok (c1, l1) →
        Config.init (.parsed (mkDoc sec)) args = .ok (c2, l2) → c1 = c2) ∧
    (∀ (name : String), name ∈ eightNames → ∀ (v : PyValue) (b : String), b ∈ eightNames →
      b ≠ name → ∀ c l,
        Config.init (.parsed (mkDoc [(name, v)])) cliNone = .ok (c, l) →
        c.getattr b = defaultsConfig.getattr b) := by
  constructor
  · intro k v sec args hk c1 l1 c2 l2 h1 h2
    have e1 := init_mkDoc_config ((k, v) :: sec) args c1 l1 h1
    have e2 := init_mkDoc_config sec args c2 l2 h2
    rw [e1, e2, tomlFoldS_irrelevant_key tomlArgsS (Config.set_defaults emptyConfig) k v sec
      (fun s _ e => hk (by rw [e]; exact settingName_mem s))]
  · intro name hname v b hb hbne c l h
    obtain ⟨s, rfl⟩ := eight_mem_setting name hname
    obtain ⟨t, rfl⟩ := eight_mem_setting b hb
    have hts : t ≠ s := fun e => hbne (by rw [e])
    exact (getattr_name t c).trans
      ((init_single_key_other s t hts v c l h).trans (getattr_name t defaultsConfig).symm)

/-- Witness for C9: a case variant of a setting name has no effect, and a
manifest `skip_obsolete` leaves `skip_missing` at its default. -/
theorem manifest_keys_exact_and_independent_witness :
    defaultsConfig = defaultsConfig ∧
    ({ defaultsConfig with skip_obsolete := some (PyValue.pyBool true) } : Config).getattr
        "skip_missing" = defaultsConfig.getattr "skip_missing" :=
  ⟨manifest_keys_exact_and_independent.1 "Ignore_Obsolete" (PyValue.pyBool true) [] cliNone
      (by simp [eightNames]) defaultsConfig [] defaultsConfig [] rfl rfl,
   manifest_keys_exact_and_independent.2 "skip_obsolete" (by simp [eightNames])
      (PyValue.pyBool true) "skip_missing" (by simp [eightNames]) (by simp)
      { defaultsConfig with skip_obsolete := some (PyValue.pyBool true) }
      ["Argument skip_obsolete set to True by pyproject.toml"] rfl⟩

/-- C10: Resolution is deterministic in its inputs: equal override values and
an equal manifest-read outcome give equal results. -/
theorem resolution_deterministic (f1 f2 : PyprojectFile) (args1 args2 : CliArgs)
    (hread : (read_configuration_from_pyproject_toml f1).1 =
      (read_configuration_from_pyproject_toml f2).1)
    (hargs : args1 = args2) :
    Config.init f1 args1 = Config.init f2 args2 := by
  subst hargs
  have h2 : (read_configuration_from_pyproject_toml f1).2 =
      (read_configuration_from_pyproject_toml f2).2 := by
    rw [read_logs, read_logs, hread]
  have hr : read_configuration_from_pyproject_toml f1 =
      read_configuration_from_pyproject_toml f2 := by
    rcases hx : read_configuration_from_pyproject_toml f1 with ⟨o1, l1⟩
    rcases hy : read_configuration_from_pyproject_toml f2 with ⟨o2, l2⟩
    rw [hx, hy] at hread h2
    have ho : o1 = o2 := hread
    have hl : l1 = l2 := h2
    rw [ho, hl]
  have key : override_config_with_pyproject_toml (Config.set_defaults emptyConfig) f1 =
      override_config_with_pyproject_toml (Config.set_defaults emptyConfig) f2 := by
    unfold override_config_with_pyproject_toml
    rw [hr]
  simp only [Config.init]
  rw [key]

/-- Witness for C10: a missing file and an unparseable file have the same read
outcome, hence the same resolved configuration. -/
theorem resolution_deterministic_witness :
    Config.init .absent cliNone = Config.init .unparseable cliNone :=
  resolution_deterministic .absent .unparseable cliNone cliNone rfl rfl
